import Mathlib

/-!
  # Verification of the Polar webhook payment endpoint

  A shallow embedding of `pages/api/verify-payment.js` (the evolved revision of
  the handler, the one the specification's testable properties quote): the
  HMAC-SHA256 signature gate, the fallback-chain field extraction
  (`parsePaymentDetails`), the provider verification (`verifyPaymentWithPolar`)
  and the event routing, together with theorems settling the specification's
  claims about them.

  Modelling conventions:
  * JavaScript values are modelled by `JVal`; JS truthiness by `jTruthy`;
    the `a || b` fallback chains by `jsOr` over `Option JVal`, where `none`
    stands for any falsy chain outcome (`undefined`/`null`/`0`/`""`), which is
    observationally equivalent at every use site of this source.
  * JS numbers are modelled as exact rationals; the claims only involve values
    on which IEEE-754 doubles are exact decimals.
  * Strings sent to `crypto` functions become UTF-8 byte lists (`utf8Bytes`);
    `crypto.timingSafeEqual` throws on length mismatch, which the source
    catches and converts to `false` — modelled by an explicit length test.
  * The outbound `fetch` is an oracle `provider : JVal → Option (Nat × JVal)`
    (`none` = network failure/throw, `some (status, body)` = HTTP response);
    `JSON.stringify` for non-string bodies is an oracle parameter `stringify`.
  * Side effects observable in the source (the provider call, which outcome
    branch ran) are returned as an explicit `Effect` list.
-/

namespace JeniferBackend

set_option maxRecDepth 10000
set_option maxHeartbeats 1000000

/-! ## HMAC-SHA256 over byte lists, as used via `crypto.createHmac` -/

/-- Addition modulo 2^32. -/
def add32 (a b : Nat) : Nat := (a + b) % 4294967296

/-- Right rotation of a 32-bit word. -/
def rotr32 (x n : Nat) : Nat := ((x >>> n) ||| (x <<< (32 - n))) % 4294967296

/-- SHA-256 `Ch` function. -/
def shaCh (x y z : Nat) : Nat := (x &&& y) ^^^ ((x ^^^ 4294967295) &&& z)

/-- SHA-256 `Maj` function. -/
def shaMaj (x y z : Nat) : Nat := (x &&& y) ^^^ (x &&& z) ^^^ (y &&& z)

/-- SHA-256 big sigma 0. -/
def bsig0 (x : Nat) : Nat := rotr32 x 2 ^^^ rotr32 x 13 ^^^ rotr32 x 22

/-- SHA-256 big sigma 1. -/
def bsig1 (x : Nat) : Nat := rotr32 x 6 ^^^ rotr32 x 11 ^^^ rotr32 x 25

/-- SHA-256 small sigma 0. -/
def ssig0 (x : Nat) : Nat := rotr32 x 7 ^^^ rotr32 x 18 ^^^ (x >>> 3)

/-- SHA-256 small sigma 1. -/
def ssig1 (x : Nat) : Nat := rotr32 x 17 ^^^ rotr32 x 19 ^^^ (x >>> 10)

/-- The 64 SHA-256 round constants. -/
def shaK : List Nat :=
  [1116352408, 1899447441, 3049323471, 3921009573, 961987163, 1508970993,
   2453635748, 2870763221, 3624381080, 310598401, 607225278, 1426881987,
   1925078388, 2162078206, 2614888103, 3248222580, 3835390401, 4022224774,
   264347078, 604807628, 770255983, 1249150122, 1555081692, 1996064986,
   2554220882, 2821834349, 2952996808, 3210313671, 3336571891, 3584528711,
   113926993, 338241895, 666307205, 773529912, 1294757372, 1396182291,
   1695183700, 1986661051, 2177026350, 2456956037, 2730485921, 2820302411,
   3259730800, 3345764771, 3516065817, 3600352804, 4094571909, 275423344,
   430227734, 506948616, 659060556, 883997877, 958139571, 1322822218,
   1537002063, 1747873779, 1955562222, 2024104815, 2227730452, 2361852424,
   2428436474, 2756734187, 3204031479, 3329325298]

/-- The SHA-256 initial hash state. -/
def shaInit : List Nat :=
  [1779033703, 3144134277, 1013904242, 2773480762, 1359893119, 2600822924,
   528734635, 1541459225]

/-- Big-endian 32-bit words from a byte list (4 bytes at a time). -/
def toWords : List Nat → List Nat
  | b0 :: b1 :: b2 :: b3 :: t => (((b0 * 256 + b1) * 256 + b2) * 256 + b3) :: toWords t
  | _ => []

/-- Extend the 16-word schedule by `fuel` further words. -/
def extendW (fuel : Nat) (w : List Nat) : List Nat :=
  match fuel with
  | 0 => w
  | f + 1 =>
    let i := w.length
    let nw := add32 (add32 (ssig1 (w.getD (i - 2) 0)) (w.getD (i - 7) 0))
                    (add32 (ssig0 (w.getD (i - 15) 0)) (w.getD (i - 16) 0))
    extendW f (w ++ [nw])

/-- One SHA-256 round on the 8-word working state. -/
def roundStep (st : List Nat) (k w : Nat) : List Nat :=
  match st with
  | [a, b, c, d, e, f, g, h] =>
    let t1 := add32 h (add32 (bsig1 e) (add32 (shaCh e f g) (add32 k w)))
    let t2 := add32 (bsig0 a) (shaMaj a b c)
    [add32 t1 t2, a, b, c, add32 d t1, e, f, g]
  | other => other

/-- Run the 64 rounds, consuming the constants and the schedule in lockstep. -/
def compressRounds (ks ws st : List Nat) : List Nat :=
  match ks, ws with
  | k :: kt, w :: wt => compressRounds kt wt (roundStep st k w)
  | _, _ => st

/-- Compress one 64-byte block into the running state. -/
def compress (st block : List Nat) : List Nat :=
  let w := extendW 48 (toWords block)
  (st.zip (compressRounds shaK w st)).map (fun p => add32 p.1 p.2)

/-- `n` bytes of `v`, big-endian. -/
def natToBytesBE (n v : Nat) : List Nat :=
  match n with
  | 0 => []
  | m + 1 => natToBytesBE m (v / 256) ++ [v % 256]

/-- SHA-256 padding: a 1 bit, zeros, and the 64-bit bit length. -/
def padMessage (msg : List Nat) : List Nat :=
  let l := msg.length
  let zeros := (64 - ((l + 9) % 64)) % 64
  msg ++ [128] ++ List.replicate zeros 0 ++ natToBytesBE 8 ((8 * l) % 18446744073709551616)

/-- Fold `compress` over the 64-byte blocks of the padded message. -/
def processBlocks (fuel : Nat) (st msg : List Nat) : List Nat :=
  match fuel with
  | 0 => st
  | f + 1 =>
    match msg with
    | [] => st
    | _ => processBlocks f (compress st (msg.take 64)) (msg.drop 64)

/-- The 4 big-endian bytes of a 32-bit word. -/
def wordBytes (w : Nat) : List Nat :=
  [w / 16777216 % 256, w / 65536 % 256, w / 256 % 256, w % 256]

/-- SHA-256 of a byte list, as a 32-byte list. -/
def sha256 (msg : List Nat) : List Nat :=
  let padded := padMessage msg
  (processBlocks padded.length shaInit padded).flatMap wordBytes

/-- HMAC-SHA256 of a message under a key, as a 32-byte list. -/
def hmacSha256 (key msg : List Nat) : List Nat :=
  let k0 := if key.length > 64 then sha256 key else key
  let kp := k0 ++ List.replicate (64 - k0.length) 0
  sha256 ((kp.map (fun b => b ^^^ 92)) ++ sha256 ((kp.map (fun b => b ^^^ 54)) ++ msg))

/-- One lowercase hex digit (nibble argument). -/
def hexDigit (r : Nat) : Char :=
  if r < 10 then Char.ofNat (48 + r) else if r < 16 then Char.ofNat (87 + r) else Char.ofNat 48

/-- Lowercase hex rendering of a byte list, as `Buffer.digest('hex')` yields. -/
def bytesToHex (l : List Nat) : String :=
  String.mk (l.flatMap (fun b => [hexDigit (b / 16 % 16), hexDigit (b % 16)]))

/-- UTF-8 encoding of one character. -/
def utf8Char (c : Char) : List Nat :=
  let n := c.toNat
  if n < 128 then [n]
  else if n < 2048 then [192 + n / 64, 128 + n % 64]
  else if n < 65536 then [224 + n / 4096, 128 + n / 64 % 64, 128 + n % 64]
  else [240 + n / 262144, 128 + n / 4096 % 64, 128 + n / 64 % 64, 128 + n % 64]

/-- UTF-8 bytes of a string, as `Buffer.from(s)` yields. -/
def utf8Bytes (s : String) : List Nat := s.data.flatMap utf8Char

/-- The hex HMAC-SHA256 digest, as the source's
`crypto.createHmac('sha256', secret).update(payload).digest('hex')`. -/
def hmacSha256Hex (key msg : List Nat) : String := bytesToHex (hmacSha256 key msg)

/-! ## JavaScript values, truthiness and `||` fallback chains -/

mutual

/-- A JSON/JavaScript value as it appears in the webhook payloads. -/
inductive JVal where
  | null : JVal
  | bool (b : Bool) : JVal
  | num (q : ℚ) : JVal
  | str (s : String) : JVal
  | obj (fields : JFields) : JVal
deriving DecidableEq

/-- The field list of a JS object. -/
inductive JFields where
  | nil : JFields
  | cons (key : String) (v : JVal) (rest : JFields) : JFields
deriving DecidableEq

end

/-- Build a field list from a `List` literal. -/
def jfields : List (String × JVal) → JFields
  | [] => JFields.nil
  | (k, v) :: t => JFields.cons k v (jfields t)

/-- First binding of a key (JS property access on an object). -/
def JFields.lookupKey : JFields → String → Option JVal
  | JFields.nil, _ => none
  | JFields.cons k v t, key => if k == key then some v else t.lookupKey key

/-- Whether a key is bound. -/
def JFields.hasKey : JFields → String → Bool
  | JFields.nil, _ => false
  | JFields.cons k _ t, key => k == key || t.hasKey key

/-- Replace the value at a key, keeping its position. -/
def JFields.setKey : JFields → String → JVal → JFields
  | JFields.nil, _, _ => JFields.nil
  | JFields.cons k v t, key, val =>
    JFields.cons k (if k == key then val else v) (t.setKey key val)

/-- Append one binding at the end. -/
def JFields.snoc : JFields → String → JVal → JFields
  | JFields.nil, k, v => JFields.cons k v JFields.nil
  | JFields.cons k0 v0 t, k, v => JFields.cons k0 v0 (t.snoc k v)

/-- Number of bindings. -/
def JFields.count : JFields → Nat
  | JFields.nil => 0
  | JFields.cons _ _ t => t.count + 1

/-- JS truthiness of a value. -/
def jTruthy : JVal → Bool
  | JVal.null => false
  | JVal.bool b => b
  | JVal.num q => q != 0
  | JVal.str s => s != ""
  | JVal.obj _ => true

/-- Property access `v[k]`: `none` models `undefined` (missing key or non-object). -/
def jLookup (v : JVal) (k : String) : Option JVal :=
  match v with
  | JVal.obj fs => fs.lookupKey k
  | _ => none

/-- The JS fallback `a || b`, on `Option JVal` where `none` stands for a falsy
outcome; chains ending in `|| null` (or used only under truthiness guards)
normalise all falsy results to `none`. -/
def jsOr (a b : Option JVal) : Option JVal :=
  match a with
  | some v => if jTruthy v then some v else b
  | none => b

/-- `webhookData.data?.k` — one key under the `data` envelope. -/
def dget (b : JVal) (k : String) : Option JVal :=
  (jLookup b ("data")).bind (fun d => jLookup d k)

/-- `webhookData.data?.k1?.k2` — two levels under the `data` envelope. -/
def dget2 (b : JVal) (k1 k2 : String) : Option JVal :=
  ((jLookup b ("data")).bind (fun d => jLookup d k1)).bind (fun v => jLookup v k2)

/-- ASCII lowercase, as `String.prototype.toLowerCase` acts on the
status strings involved here. -/
def jsToLower (s : String) : String :=
  String.mk (s.data.map (fun c =>
    if 65 ≤ c.toNat ∧ c.toNat ≤ 90 then Char.ofNat (c.toNat + 32) else c))

/-- Decimal rendering of a natural number (for interpolated messages). -/
def natShow (n : Nat) : String :=
  String.mk ((Nat.toDigits 10 n))

/-- Template-literal rendering `${v}` of a value. Only the string, null,
boolean and integer cases are observable in the claims; general JS number
formatting is not modelled. -/
def jShow : JVal → String
  | JVal.null => "null"
  | JVal.bool b => if b then "true" else "false"
  | JVal.num q => if q.den = 1 ∧ 0 ≤ q.num then natShow q.num.toNat else "number"
  | JVal.str s => s
  | JVal.obj _ => "[object Object]"

/-- `${x}` of an extracted `Option JVal` (`none` prints as `undefined`). -/
def optShow : Option JVal → String
  | some v => jShow v
  | none => "undefined"

/-- `Number.prototype.toFixed(2)` followed by `parseFloat`: round to two
decimal places (half-up, as JS renders the nonnegative amounts at stake). -/
def jsToFixed2 (q : ℚ) : ℚ := ((Int.floor (q * 100 + 1 / 2) : ℚ)) / 100

/-- Truthiness of an environment string (`process.env` entry): set and nonempty. -/
def strOptTruthy : Option String → Bool
  | none => false
  | some s => s != ""

/-! ## Configuration, canonical payment record, responses and effects -/

/-- Environment configuration of the endpoint (`POLAR_API_KEY`,
`POLAR_WEBHOOK_SECRET`; the base URL only shapes the fetch URL and is not
modelled). -/
structure Config where
  apiKey : Option String
  webhookSecret : Option String
deriving DecidableEq

/-- The canonical payment record produced by `parsePaymentDetails`. -/
structure PaymentDetails where
  paymentId : Option JVal
  amount : Option ℚ
  amountCents : Option JVal
  currency : JVal
  customerId : Option JVal
  productId : Option JVal
  subscriptionId : Option JVal
  status : Option JVal
  eventType : Option JVal
  metadata : JVal
  createdAt : Option JVal
  updatedAt : Option JVal
  rawData : JVal
deriving DecidableEq

/-- Result of one outcome handler (`handlePaymentSuccess` / failure / refund,
or the unhandled default branch). -/
structure ProcessingResult where
  success : Bool
  message : String
  action : Option String := none
  reason : Option JVal := none
  refundAmount : Option JVal := none
  timestamp : Option String := none
deriving DecidableEq

/-- Result of `verifyPaymentWithPolar`. -/
structure VerifyResult where
  success : Bool
  message : String
  error : Option String := none
  data : Option JVal := none
  statusCode : Option Nat := none
deriving DecidableEq

/-- The `verification` object of the 200 envelope. -/
structure VerificationInfo where
  verified : Bool
  paymentId : Option JVal
  status : Option JVal
  verifiedAt : String
deriving DecidableEq

/-- The `payment` object of the 200 envelope. -/
structure PaymentInfo where
  id : Option JVal
  amount : Option ℚ
  currency : JVal
  customerId : Option JVal
deriving DecidableEq

/-- A JSON response of the endpoint (the 500 branch is unreachable in the
model, since the embedded code never throws). -/
structure Resp where
  status : Nat
  success : Bool
  message : String
  error : Option String := none
  paymentId : Option JVal := none
  verification : Option VerificationInfo := none
  payment : Option PaymentInfo := none
  processing : Option ProcessingResult := none
deriving DecidableEq

/-- Observable side effects of one request: outbound provider lookups and
which outcome branch was routed to. -/
inductive Effect where
  | providerCall (paymentId : JVal)
  | routedSuccess
  | routedFailure
  | routedRefund
deriving DecidableEq

/-! ## The endpoint functions, one per source function -/

/-- `verifyPolarSignature(payload, signature, secret)`: hex HMAC-SHA256 of the
payload under the secret, compared with `crypto.timingSafeEqual` on the two
UTF-8 buffers; a length mismatch makes `timingSafeEqual` throw, which the
source catches and turns into `false`. -/
def verifyPolarSignature (payload : List Nat) (signature secret : String) : Bool :=
  let expected := hmacSha256Hex (utf8Bytes secret) payload
  let sb := utf8Bytes signature
  let eb := utf8Bytes expected
  if sb.length = eb.length then sb == eb else false

/-- The payment id fallback chain (source lines 180-186):
`data?.id || data?.payment_id || payment_id || id || data?.checkout_id || checkout_id || null`. -/
def paymentIdOf (webhookData : JVal) : Option JVal :=
  jsOr (dget webhookData ("id")) (jsOr (dget webhookData ("payment_id"))
    (jsOr (jLookup webhookData ("payment_id")) (jsOr (jLookup webhookData ("id"))
      (jsOr (dget webhookData ("checkout_id"))
        (jsOr (jLookup webhookData ("checkout_id")) none)))))

/-- The amount fallback chain (source lines 189-192):
`data?.amount_cents || amount_cents || data?.amount || amount`. -/
def amountCentsOf (webhookData : JVal) : Option JVal :=
  jsOr (dget webhookData ("amount_cents")) (jsOr (jLookup webhookData ("amount_cents"))
    (jsOr (dget webhookData ("amount")) (jsOr (jLookup webhookData ("amount")) none)))

/-- `parsePaymentDetails(webhookData)`: the ordered fallback extraction of the
canonical payment record. Non-numeric truthy values under the amount keys
(which JS would coerce) are not modelled and yield no amount. -/
def parsePaymentDetails (webhookData : JVal) : PaymentDetails :=
  let paymentId := paymentIdOf webhookData
  let amountCents := amountCentsOf webhookData
  let amount : Option ℚ :=
    match amountCents with
    | some (JVal.num q) => some (jsToFixed2 (q / 100))
    | _ => none
  let currency :=
    (jsOr (dget webhookData ("currency"))
      (jsOr (jLookup webhookData ("currency")) none)).getD (JVal.str ("USD"))
  let customerId :=
    jsOr (dget webhookData ("customer_id")) (jsOr (jLookup webhookData ("customer_id"))
      (jsOr (dget webhookData ("user_id")) (jsOr (jLookup webhookData ("user_id"))
        (jsOr (dget2 webhookData ("customer") ("id")) none))))
  let productId :=
    jsOr (dget webhookData ("product_id")) (jsOr (jLookup webhookData ("product_id"))
      (jsOr (dget2 webhookData ("product") ("id")) none))
  let subscriptionId :=
    jsOr (dget webhookData ("subscription_id")) (jsOr (jLookup webhookData ("subscription_id"))
      (jsOr (dget2 webhookData ("subscription") ("id")) none))
  let status :=
    jsOr (dget webhookData ("status")) (jsOr (jLookup webhookData ("status"))
      (jsOr (dget webhookData ("state")) (jsOr (jLookup webhookData ("state")) none)))
  let eventType :=
    jsOr (jLookup webhookData ("type")) (jsOr (jLookup webhookData ("event")) none)
  let metadata :=
    (jsOr (dget webhookData ("metadata"))
      (jsOr (jLookup webhookData ("metadata")) none)).getD (JVal.obj JFields.nil)
  let createdAt :=
    jsOr (dget webhookData ("created_at")) (jsOr (jLookup webhookData ("created_at")) none)
  let updatedAt :=
    jsOr (dget webhookData ("updated_at")) (jsOr (jLookup webhookData ("updated_at")) none)
  { paymentId := paymentId, amount := amount, amountCents := amountCents,
    currency := currency, customerId := customerId, productId := productId,
    subscriptionId := subscriptionId, status := status, eventType := eventType,
    metadata := metadata, createdAt := createdAt, updatedAt := updatedAt,
    rawData := webhookData }

/-- The provider's status allow-list. -/
def validStatuses : List String := ["succeeded", "completed", "paid", "processed"]

/-- Object spread `{...o, k: v}`: replace `k` in place, or append it. -/
def objSet (v : JVal) (k : String) (val : JVal) : JVal :=
  match v with
  | JVal.obj fs =>
    if fs.hasKey k then JVal.obj (fs.setKey k val)
    else JVal.obj (fs.snoc k val)
  | _ => JVal.obj (JFields.cons k val JFields.nil)

/-- The `Payment status '…' is not valid` message. -/
def invalidStatusMsg (t : String) : String :=
  "Payment status '" ++ t ++ "' is not valid. Expected: succeeded, completed, paid, processed"

/-- The provider status fallback chain (source line 320):
`paymentData.status || paymentData.state || paymentData.payment_status`. -/
def providerStatusOf (paymentData : JVal) : Option JVal :=
  jsOr (jLookup paymentData ("status"))
    (jsOr (jLookup paymentData ("state"))
      (jsOr (jLookup paymentData ("payment_status")) none))

/-- `verifyPaymentWithPolar(paymentId)`: skip-and-pass without an API key,
fail without a payment id, then interrogate the provider oracle; an
HTTP-success body must carry a status in the allow-list (the `toLowerCase`
call throws on truthy non-strings, caught as a verification error). -/
def verifyPaymentWithPolar (cfg : Config) (provider : JVal → Option (Nat × JVal))
    (now : String) (paymentId : Option JVal) : VerifyResult × List Effect :=
  if !(strOptTruthy cfg.apiKey) then
    ({ success := true, message := "API key not configured, verification skipped",
       data := none }, [])
  else
    match paymentId with
    | none =>
      ({ success := false, error := some ("Missing payment ID"),
         message := "Payment ID is required for verification" }, [])
    | some pid =>
      match provider pid with
      | none =>
        ({ success := false, error := some ("Verification error"),
           message := "Failed to verify payment: fetch failed" }, [Effect.providerCall pid])
      | some (st, paymentData) =>
        if !(200 ≤ st && st < 300) then
          ({ success := false, error := some ("API verification failed"),
             message := "Polar API returned " ++ natShow st,
             statusCode := some st }, [Effect.providerCall pid])
        else
          match providerStatusOf paymentData with
          | some (JVal.str s) =>
            if validStatuses.contains (jsToLower s) then
              ({ success := true, message := "Payment verified successfully",
                 data := some (objSet (objSet paymentData ("status")
                   (JVal.str (jsToLower s))) ("verifiedAt") (JVal.str now)) },
               [Effect.providerCall pid])
            else
              ({ success := false, error := some ("Invalid payment status"),
                 message := invalidStatusMsg s, data := some paymentData },
               [Effect.providerCall pid])
          | some _ =>
            ({ success := false, error := some ("Verification error"),
               message := "Failed to verify payment: status.toLowerCase is not a function" },
             [Effect.providerCall pid])
          | none =>
            ({ success := false, error := some ("Invalid payment status"),
               message := invalidStatusMsg ("undefined"), data := some paymentData },
             [Effect.providerCall pid])

/-- `handlePaymentSuccess`: a placeholder that reports granted access. -/
def handlePaymentSuccess (paymentDetails : PaymentDetails) (now : String) : ProcessingResult :=
  { success := true,
    message := "Payment " ++ optShow paymentDetails.paymentId ++ " verified and processed successfully",
    action := some ("granted_access"), timestamp := some now }

/-- `handlePaymentFailure`: extract a failure reason and, when an API key is
configured, look the payment up once more (result only logged). -/
def handlePaymentFailure (cfg : Config) (provider : JVal → Option (Nat × JVal))
    (now : String) (webhookData : JVal) (paymentDetails : PaymentDetails) :
    ProcessingResult × List Effect :=
  let reason :=
    (jsOr (dget webhookData ("failure_reason")) (jsOr (jLookup webhookData ("failure_reason"))
      (jsOr (dget webhookData ("error"))
        (jsOr (jLookup webhookData ("error")) none)))).getD (JVal.str ("Unknown error"))
  let eff :=
    if paymentDetails.paymentId.isSome && strOptTruthy cfg.apiKey then
      (verifyPaymentWithPolar cfg provider now paymentDetails.paymentId).2
    else []
  ({ success := true,
     message := "Payment " ++ optShow paymentDetails.paymentId ++ " failure processed",
     reason := some reason, action := some ("logged_failure"), timestamp := some now }, eff)

/-- `handlePaymentRefund`: extract a refund amount and, when an API key is
configured, look the payment up once more (result only logged). -/
def handlePaymentRefund (cfg : Config) (provider : JVal → Option (Nat × JVal))
    (now : String) (webhookData : JVal) (paymentDetails : PaymentDetails) :
    ProcessingResult × List Effect :=
  let refundAmount :=
    jsOr (dget webhookData ("refund_amount")) (jsOr (jLookup webhookData ("refund_amount"))
      (jsOr (paymentDetails.amount.map JVal.num) none))
  let eff :=
    if paymentDetails.paymentId.isSome && strOptTruthy cfg.apiKey then
      (verifyPaymentWithPolar cfg provider now paymentDetails.paymentId).2
    else []
  ({ success := true,
     message := "Payment " ++ optShow paymentDetails.paymentId ++ " refund processed",
     refundAmount := (match refundAmount with
       | some v => some v
       | none => paymentDetails.amount.map JVal.num),
     action := some ("revoked_access"), timestamp := some now }, eff)

/-- The `default` branch of the event switch. -/
def unhandledResult (t : String) : ProcessingResult :=
  { success := true, message := "Event type '" ++ t ++ "' received but not processed" }

def successEvents : List String := ["payment.succeeded", "payment.completed", "checkout.succeeded"]

def failureEvents : List String := ["payment.failed", "payment.cancelled", "checkout.failed"]

/-- The event type the switch dispatches on:
`requestBody.type || requestBody.event || paymentDetails.eventType`. -/
def eventTypeOf (webhookData : JVal) (paymentDetails : PaymentDetails) : Option JVal :=
  jsOr (jLookup webhookData ("type"))
    (jsOr (jLookup webhookData ("event")) (jsOr paymentDetails.eventType none))

/-- The 200 success envelope. -/
def successResp (paymentDetails : PaymentDetails) (vr : VerifyResult)
    (proc : ProcessingResult) (now : String) : Resp :=
  { status := 200, success := true,
    message := "Payment verified and processed successfully",
    verification := some
      { verified := true, paymentId := paymentDetails.paymentId,
        status := (match vr.data.bind (fun d => jLookup d ("status")) with
          | some v => if jTruthy v then some v else paymentDetails.status
          | none => paymentDetails.status),
        verifiedAt := now },
    payment := some
      { id := paymentDetails.paymentId, amount := paymentDetails.amount,
        currency := paymentDetails.currency, customerId := paymentDetails.customerId },
    processing := some proc }

/-- 405 for non-POST requests. -/
def methodNotAllowedResp : Resp :=
  { status := 405, success := false, error := some ("Method not allowed"),
    message := "Only POST requests are accepted" }

/-- 400 for an empty or invalid body. -/
def emptyBodyResp : Resp :=
  { status := 400, success := false, error := some ("Invalid request"),
    message := "Request body is empty or invalid" }

/-- 401 for a failed signature verification. -/
def invalidSignatureResp : Resp :=
  { status := 401, success := false, error := some ("Invalid signature"),
    message := "Webhook signature verification failed" }

/-- 400 when no payment id could be extracted. -/
def invalidPaymentDataResp : Resp :=
  { status := 400, success := false, error := some ("Invalid payment data"),
    message := "Payment ID not found in request" }

/-- 400 when provider verification failed
(`verificationResult.message || 'Could not verify payment with Polar API'`). -/
def verifyFailedResp (vr : VerifyResult) (paymentDetails : PaymentDetails) : Resp :=
  { status := 400, success := false, error := some ("Payment verification failed"),
    message := if vr.message == "" then "Could not verify payment with Polar API" else vr.message,
    paymentId := paymentDetails.paymentId }

/-- The handler body from field extraction onwards (source lines 63-134):
extraction, provider verification, event routing, response assembly. -/
def afterSignature (cfg : Config) (provider : JVal → Option (Nat × JVal))
    (now : String) (body : JVal) : Resp × List Effect :=
  let paymentDetails := parsePaymentDetails body
  match paymentDetails.paymentId with
  | none => (invalidPaymentDataResp, [])
  | some _ =>
    let vres := verifyPaymentWithPolar cfg provider now paymentDetails.paymentId
    if !vres.1.success then (verifyFailedResp vres.1 paymentDetails, vres.2)
    else
      let routed : ProcessingResult × List Effect :=
        match eventTypeOf body paymentDetails with
        | some (JVal.str s) =>
          if successEvents.contains s then
            (handlePaymentSuccess paymentDetails now, [Effect.routedSuccess])
          else if failureEvents.contains s then
            let r := handlePaymentFailure cfg provider now body paymentDetails
            (r.1, Effect.routedFailure :: r.2)
          else if s == "payment.refunded" then
            let r := handlePaymentRefund cfg provider now body paymentDetails
            (r.1, Effect.routedRefund :: r.2)
          else (unhandledResult s, [])
        | some v => (unhandledResult (jShow v), [])
        | none => (unhandledResult ("null"), [])
      (successResp paymentDetails vres.1 routed.1 now, vres.2 ++ routed.2)

/-- One step of the header fallback `a || b` on strings (`""` is falsy). -/
def strHdrOr (a : Option String) (b : Option String) : Option String :=
  match a with
  | some s => if s == "" then b else some s
  | none => b

/-- The signature extracted from the headers,
`x-polar-signature || polar-signature || x-signature`; `none` stands for a
falsy chain outcome. -/
def getSignature (h1 h2 h3 : Option String) : Option String :=
  strHdrOr h1 (strHdrOr h2 (strHdrOr h3 none))

/-- `Object.keys(requestBody).length`. -/
def jKeysCount : JVal → Nat
  | JVal.obj fs => fs.count
  | JVal.str s => s.length
  | _ => 0

/-- `!requestBody || Object.keys(requestBody).length === 0`. -/
def jsEmptyBody (v : JVal) : Bool := !(jTruthy v) || jKeysCount v == 0

/-- The raw body the HMAC is computed over:
`typeof requestBody === 'string' ? requestBody : JSON.stringify(requestBody)`. -/
def rawBodyBytes (stringify : JVal → List Nat) (body : JVal) : List Nat :=
  match body with
  | JVal.str s => utf8Bytes s
  | v => stringify v

/-- Whether the request is rejected by the signature step: a secret is
configured, a signature header is present, and verification fails. -/
def signatureGate (cfg : Config) (stringify : JVal → List Nat)
    (h1 h2 h3 : Option String) (body : JVal) : Bool :=
  match cfg.webhookSecret, getSignature h1 h2 h3 with
  | some secret, some sig =>
    if secret == "" then false
    else !(verifyPolarSignature (rawBodyBytes stringify body) sig secret)
  | _, _ => false

/-- The full request handler. -/
def handler (cfg : Config) (stringify : JVal → List Nat)
    (provider : JVal → Option (Nat × JVal)) (now : String) (method : String)
    (h1 h2 h3 : Option String) (reqBody : Option JVal) : Resp × List Effect :=
  if method ≠ "POST" then (methodNotAllowedResp, [])
  else
    match reqBody with
    | none => (emptyBodyResp, [])
    | some body =>
      if jsEmptyBody body then (emptyBodyResp, [])
      else if signatureGate cfg stringify h1 h2 h3 body then (invalidSignatureResp, [])
      else afterSignature cfg provider now body

/-! ## Concrete fixtures for witness instantiations -/

/-- A stringify oracle (never consulted in the scenarios it is used in). -/
def noStringify : JVal → List Nat := fun _ => []

/-- A provider oracle representing an unreachable provider. -/
def noProvider : JVal → Option (Nat × JVal) := fun _ => none

/-- A provider oracle answering every lookup with one fixed response. -/
def providerWith (status : Nat) (respBody : JVal) : JVal → Option (Nat × JVal) :=
  fun _ => some (status, respBody)

/-- Deployment with neither API key nor webhook secret configured. -/
def cfgOpen : Config := { apiKey := none, webhookSecret := none }

/-- Deployment with an API key but no webhook secret. -/
def cfgApiKey : Config := { apiKey := some ("key"), webhookSecret := none }

/-- Deployment with the webhook secret `sec` and no API key. -/
def cfgSecret : Config := { apiKey := none, webhookSecret := some ("sec") }

/-! ## Supporting lemmas: digest shape and UTF-8 on ASCII -/

theorem roundStep_length (st : List Nat) (k w : Nat) :
    (roundStep st k w).length = st.length := by
  unfold roundStep
  split <;> simp

theorem compressRounds_length (ks : List Nat) : ∀ ws st : List Nat,
    (compressRounds ks ws st).length = st.length := by
  induction ks with
  | nil => intro ws st; rfl
  | cons k kt ih =>
    intro ws st
    cases ws with
    | nil => rfl
    | cons w wt =>
      have hstep : compressRounds (k :: kt) (w :: wt) st
          = compressRounds kt wt (roundStep st k w) := rfl
      rw [hstep, ih, roundStep_length]

theorem compress_length (st block : List Nat) (h : st.length = 8) :
    (compress st block).length = 8 := by
  unfold compress
  simp [compressRounds_length, h]

theorem processBlocks_length (fuel : Nat) : ∀ st msg : List Nat,
    st.length = 8 → (processBlocks fuel st msg).length = 8 := by
  induction fuel with
  | zero => intro st msg h; exact h
  | succ f ih =>
    intro st msg h
    unfold processBlocks
    match msg with
    | [] => exact h
    | b :: t => exact ih _ _ (compress_length _ _ h)

theorem flatMap_wordBytes_length (l : List Nat) :
    (l.flatMap wordBytes).length = 4 * l.length := by
  induction l with
  | nil => simp
  | cons b t ih => simp [wordBytes, ih]; ring

theorem sha256_length (msg : List Nat) : (sha256 msg).length = 32 := by
  unfold sha256
  rw [flatMap_wordBytes_length, processBlocks_length]
  rfl

theorem hmacSha256_length (key msg : List Nat) : (hmacSha256 key msg).length = 32 := by
  unfold hmacSha256
  exact sha256_length _

theorem hexDigit_ascii : ∀ r : Nat, r < 16 → (hexDigit r).toNat < 128 := by decide

theorem utf8Char_ascii (c : Char) (h : c.toNat < 128) : utf8Char c = [c.toNat] := by
  unfold utf8Char
  simp [h]

theorem utf8Bytes_mk_ascii (l : List Char) (h : ∀ c ∈ l, c.toNat < 128) :
    utf8Bytes (String.mk l) = l.map Char.toNat := by
  induction l with
  | nil => rfl
  | cons c t ih =>
    have hc : utf8Char c = [c.toNat] := utf8Char_ascii c (h c (by simp))
    have ht := ih (fun x hx => h x (by simp [hx]))
    simp only [utf8Bytes, List.flatMap_cons, hc] at *
    simp [ht]

theorem bytesToHex_data (l : List Nat) :
    (bytesToHex l).data = l.flatMap (fun b => [hexDigit (b / 16 % 16), hexDigit (b % 16)]) := rfl

theorem bytesToHex_ascii (l : List Nat) :
    ∀ c ∈ (bytesToHex l).data, c.toNat < 128 := by
  intro c hc
  rw [bytesToHex_data] at hc
  simp only [List.mem_flatMap] at hc
  obtain ⟨b, _, hb⟩ := hc
  simp only [List.mem_cons, List.mem_singleton] at hb
  rcases hb with h | h | h
  · exact h ▸ hexDigit_ascii _ (Nat.mod_lt _ (by norm_num))
  · exact h ▸ hexDigit_ascii _ (Nat.mod_lt _ (by norm_num))
  · cases h

theorem hexPairs_length (l : List Nat) :
    (l.flatMap (fun b => [hexDigit (b / 16 % 16), hexDigit (b % 16)])).length
      = 2 * l.length := by
  induction l with
  | nil => rfl
  | cons b t ih =>
    simp only [List.flatMap_cons, List.length_append, ih, List.length_cons]
    simp
    omega

theorem utf8Bytes_bytesToHex_length (l : List Nat) :
    (utf8Bytes (bytesToHex l)).length = 2 * l.length := by
  have h := utf8Bytes_mk_ascii (bytesToHex l).data (bytesToHex_ascii l)
  have hmk : String.mk (bytesToHex l).data = bytesToHex l := rfl
  rw [hmk] at h
  rw [h, List.length_map, bytesToHex_data, hexPairs_length]

theorem hmacHex_utf8_length (key msg : List Nat) :
    (utf8Bytes (hmacSha256Hex key msg)).length = 64 := by
  unfold hmacSha256Hex
  rw [utf8Bytes_bytesToHex_length, hmacSha256_length]

theorem hmacHex_ne_empty (key msg : List Nat) : hmacSha256Hex key msg ≠ "" := by
  intro h
  have := hmacHex_utf8_length key msg
  rw [h] at this
  simp [utf8Bytes] at this

/-- `utf8Bytes` is injective on ASCII strings (all the hex digests at stake). -/
theorem utf8Bytes_inj_ascii (s t : String)
    (hs : ∀ c ∈ s.data, c.toNat < 128) (ht : ∀ c ∈ t.data, c.toNat < 128)
    (h : utf8Bytes s = utf8Bytes t) : s = t := by
  obtain ⟨ls⟩ := s
  obtain ⟨lt⟩ := t
  rw [utf8Bytes_mk_ascii ls hs, utf8Bytes_mk_ascii lt ht] at h
  have hls : ls = lt := by
    have hinj : Function.Injective Char.toNat := by
      intro a b hab
      rw [← Char.ofNat_toNat a, ← Char.ofNat_toNat b, hab]
    exact List.map_injective_iff.mpr hinj h
  rw [hls]

/-- Distinct hex digests have distinct UTF-8 byte lists. -/
theorem hmacHex_utf8_ne (key m1 m2 : List Nat)
    (h : hmacSha256Hex key m1 ≠ hmacSha256Hex key m2) :
    utf8Bytes (hmacSha256Hex key m1) ≠ utf8Bytes (hmacSha256Hex key m2) := by
  intro he
  exact h (utf8Bytes_inj_ascii _ _ (bytesToHex_ascii _) (bytesToHex_ascii _) he)

/-- The signature check passes exactly when the received signature's bytes
equal the bytes of the expected hex digest. -/
theorem verifyPolarSignature_iff (payload : List Nat) (signature secret : String) :
    verifyPolarSignature payload signature secret = true
      ↔ utf8Bytes signature = utf8Bytes (hmacSha256Hex (utf8Bytes secret) payload) := by
  unfold verifyPolarSignature
  dsimp only
  split
  · simp
  · next hlen =>
    simp only [Bool.false_eq_true, false_iff]
    intro he
    exact hlen (congrArg List.length he)

theorem utf8Char_ne_nil (c : Char) : utf8Char c ≠ [] := by
  unfold utf8Char
  dsimp only
  split
  · simp
  · split
    · simp
    · split <;> simp

theorem utf8Bytes_ne_nil (s : String) (h : s ≠ "") : utf8Bytes s ≠ [] := by
  obtain ⟨l⟩ := s
  cases l with
  | nil => exact absurd rfl h
  | cons c t =>
    show (c :: t).flatMap utf8Char ≠ []
    rw [List.flatMap_cons]
    intro he
    exact utf8Char_ne_nil c (List.append_eq_nil.mp he).1

theorem ne_empty_of_utf8Bytes_ne_nil (s : String) (h : utf8Bytes s ≠ []) : s ≠ "" := by
  intro he
  rw [he] at h
  exact h rfl

theorem str_length_ne_zero (s : String) (h : s ≠ "") : s.length ≠ 0 := by
  obtain ⟨l⟩ := s
  cases l with
  | nil => exact absurd rfl h
  | cons c t => simp [String.length]

theorem jsEmptyBody_str (s : String) (h : s ≠ "") : jsEmptyBody (JVal.str s) = false := by
  unfold jsEmptyBody jTruthy jKeysCount
  simp [h, str_length_ne_zero s h]

theorem getSignature_some (sig : String) (h2 h3 : Option String) (h : sig ≠ "") :
    getSignature (some sig) h2 h3 = some sig := by
  unfold getSignature strHdrOr
  simp [h]

/-- With a nonempty secret and a present nonempty signature header, the gate
is exactly the negation of the verification outcome. -/
theorem signatureGate_eval (apiKey : Option String) (stringify : JVal → List Nat)
    (h2 h3 : Option String) (secret sig : String) (body : JVal)
    (hsecret : secret ≠ "") (hsig : sig ≠ "") :
    signatureGate ⟨apiKey, some secret⟩ stringify (some sig) h2 h3 body
      = !(verifyPolarSignature (rawBodyBytes stringify body) sig secret) := by
  unfold signatureGate
  rw [getSignature_some sig h2 h3 hsig]
  simp [hsecret]

/-- The POST handler on a nonempty string body, reduced past the method and
empty-body checks. -/
theorem handler_str_body (cfg : Config) (stringify : JVal → List Nat)
    (provider : JVal → Option (Nat × JVal)) (now : String)
    (h1 h2 h3 : Option String) (body : String) (hbody : body ≠ "") :
    handler cfg stringify provider now ("POST") h1 h2 h3 (some (JVal.str body))
      = if signatureGate cfg stringify h1 h2 h3 (JVal.str body) then (invalidSignatureResp, [])
        else afterSignature cfg provider now (JVal.str body) := by
  unfold handler
  simp [jsEmptyBody_str body hbody]

theorem list_set_ne (l : List Nat) : ∀ (i c : Nat), i < l.length →
    c ≠ l.getD i 0 → l.set i c ≠ l := by
  induction l with
  | nil => intro i c hi; simp at hi
  | cons a t ih =>
    intro i c hi hc
    cases i with
    | zero =>
      intro he
      exact hc (List.cons.inj he).1
    | succ j =>
      intro he
      exact ih j c (by simpa using hi) hc (List.cons.inj he).2

/-! ## The claims -/

/-- Claim C1: with a configured (nonempty) webhook secret and a present
signature header, a signature equal to the hex HMAC-SHA256 of the stringified
body under the secret passes the check and processing continues into the
post-signature stage; any single-byte mutation of the signature makes the
handler answer 401 with no further effects, and so does any single-byte
mutation of the body whose HMAC digest differs from the original one (the
second-preimage property of HMAC-SHA256, instantiated concretely in the
witness). -/
theorem C1_signature_check
    (apiKey : Option String) (stringify : JVal → List Nat)
    (provider : JVal → Option (Nat × JVal)) (now : String) (h2 h3 : Option String)
    (secret body sig : String)
    (hsecret : secret ≠ "") (hbody : body ≠ "")
    (hsig : sig = hmacSha256Hex (utf8Bytes secret) (utf8Bytes body)) :
    (verifyPolarSignature (utf8Bytes body) sig secret = true
      ∧ handler ⟨apiKey, some secret⟩ stringify provider now ("POST") (some sig) h2 h3
          (some (JVal.str body))
        = afterSignature ⟨apiKey, some secret⟩ provider now (JVal.str body))
    ∧ (∀ (sig2 : String) (i c : Nat),
        utf8Bytes sig2 = (utf8Bytes sig).set i c → i < (utf8Bytes sig).length →
        c ≠ (utf8Bytes sig).getD i 0 →
        handler ⟨apiKey, some secret⟩ stringify provider now ("POST") (some sig2) h2 h3
          (some (JVal.str body)) = (invalidSignatureResp, []))
    ∧ (∀ (body2 : String) (i c : Nat),
        utf8Bytes body2 = (utf8Bytes body).set i c → i < (utf8Bytes body).length →
        c ≠ (utf8Bytes body).getD i 0 →
        hmacSha256Hex (utf8Bytes secret) (utf8Bytes body2)
          ≠ hmacSha256Hex (utf8Bytes secret) (utf8Bytes body) →
        handler ⟨apiKey, some secret⟩ stringify provider now ("POST") (some sig) h2 h3
          (some (JVal.str body2)) = (invalidSignatureResp, [])) := by
  have hsigne : sig ≠ "" := hsig ▸ hmacHex_ne_empty _ _
  have hverify : verifyPolarSignature (utf8Bytes body) sig secret = true := by
    rw [verifyPolarSignature_iff, hsig]
  refine ⟨⟨hverify, ?_⟩, ?_, ?_⟩
  · rw [handler_str_body _ _ _ _ _ _ _ _ hbody,
      signatureGate_eval _ _ _ _ _ _ _ hsecret hsigne]
    have : rawBodyBytes stringify (JVal.str body) = utf8Bytes body := rfl
    rw [this, hverify]
    simp
  · intro sig2 i c hset hi hc
    have hsb2 : utf8Bytes sig2 ≠ utf8Bytes sig := by
      rw [hset]
      exact list_set_ne _ i c hi hc
    have hsig2ne : sig2 ≠ "" := by
      apply ne_empty_of_utf8Bytes_ne_nil
      rw [hset]
      intro he
      have := congrArg List.length he
      simp at this
      exact absurd (this ▸ hi) (by simp)
    have hver2 : verifyPolarSignature (utf8Bytes body) sig2 secret = false := by
      rw [← Bool.not_eq_true, verifyPolarSignature_iff]
      rw [← hsig]
      exact hsb2
    rw [handler_str_body _ _ _ _ _ _ _ _ hbody,
      signatureGate_eval _ _ _ _ _ _ _ hsecret hsig2ne]
    have hraw : rawBodyBytes stringify (JVal.str body) = utf8Bytes body := rfl
    rw [hraw, hver2]
    simp
  · intro body2 i c hset hi hc hdigest
    have hbody2ne : body2 ≠ "" := by
      apply ne_empty_of_utf8Bytes_ne_nil
      rw [hset]
      intro he
      have := congrArg List.length he
      simp at this
      exact absurd (this ▸ hi) (by simp)
    have hsb : utf8Bytes sig ≠ utf8Bytes (hmacSha256Hex (utf8Bytes secret) (utf8Bytes body2)) := by
      rw [hsig]
      exact fun he => hdigest ((utf8Bytes_inj_ascii _ _ (bytesToHex_ascii _)
        (bytesToHex_ascii _) he.symm))
    have hver2 : verifyPolarSignature (utf8Bytes body2) sig secret = false := by
      rw [← Bool.not_eq_true, verifyPolarSignature_iff]
      exact hsb
    rw [handler_str_body _ _ _ _ _ _ _ _ hbody2ne,
      signatureGate_eval _ _ _ _ _ _ _ hsecret hsigne]
    have hraw : rawBodyBytes stringify (JVal.str body2) = utf8Bytes body2 := rfl
    rw [hraw, hver2]
    simp

/-- Witness for C1 at secret `sec`, body `hello`, its actual digest, a
signature with its first byte mutated, and the body with its last byte
mutated (whose digest is computed to differ). -/
theorem C1_signature_check_witness :
    (("sec" : String) ≠ "" ∧ ("hello" : String) ≠ ""
      ∧ ("ebe9f693883053a1dedeea68252227fc40d06868ae16dfbfd84d723ae25a189c" : String)
          = hmacSha256Hex (utf8Bytes ("sec")) (utf8Bytes ("hello")))
    ∧ handler ⟨none, some ("sec")⟩ noStringify noProvider ("now") ("POST")
        (some ("ebe9f693883053a1dedeea68252227fc40d06868ae16dfbfd84d723ae25a189c"))
        none none (some (JVal.str ("hello")))
      = afterSignature ⟨none, some ("sec")⟩ noProvider ("now") (JVal.str ("hello"))
    ∧ handler ⟨none, some ("sec")⟩ noStringify noProvider ("now") ("POST")
        (some ("1be9f693883053a1dedeea68252227fc40d06868ae16dfbfd84d723ae25a189c"))
        none none (some (JVal.str ("hello")))
      = (invalidSignatureResp, [])
    ∧ handler ⟨none, some ("sec")⟩ noStringify noProvider ("now") ("POST")
        (some ("ebe9f693883053a1dedeea68252227fc40d06868ae16dfbfd84d723ae25a189c"))
        none none (some (JVal.str ("hellp")))
      = (invalidSignatureResp, []) := by
  have hsig : ("ebe9f693883053a1dedeea68252227fc40d06868ae16dfbfd84d723ae25a189c" : String)
      = hmacSha256Hex (utf8Bytes ("sec")) (utf8Bytes ("hello")) := by decide
  have hdig : hmacSha256Hex (utf8Bytes ("sec")) (utf8Bytes ("hellp"))
      ≠ hmacSha256Hex (utf8Bytes ("sec")) (utf8Bytes ("hello")) := by decide
  have h := C1_signature_check none noStringify noProvider ("now") none none
    ("sec") ("hello") ("ebe9f693883053a1dedeea68252227fc40d06868ae16dfbfd84d723ae25a189c")
    (by decide) (by decide) hsig
  exact ⟨⟨by decide, by decide, hsig⟩, h.1.2,
    h.2.1 ("1be9f693883053a1dedeea68252227fc40d06868ae16dfbfd84d723ae25a189c")
      0 49 (by decide) (by decide) (by decide),
    h.2.2 ("hellp") 4 112 (by decide) (by decide) (by decide) hdig⟩

/-- The post-signature stage only ever answers 400 or 200; in particular it
never answers 401. -/
theorem afterSignature_status (cfg : Config) (provider : JVal → Option (Nat × JVal))
    (now : String) (body : JVal) :
    (afterSignature cfg provider now body).1.status = 400
      ∨ (afterSignature cfg provider now body).1.status = 200 := by
  unfold afterSignature
  dsimp only
  cases (parsePaymentDetails body).paymentId with
  | none => left; rfl
  | some p =>
    dsimp only
    split
    · left; rfl
    · right; rfl

/-- Claim C7: with no (nonempty) webhook secret configured, or no truthy
signature header present, the signature gate never fires: every request with a
processable body goes straight to field extraction, and no request is answered
401. -/
theorem C7_skip_signature_check (cfg : Config) (stringify : JVal → List Nat)
    (provider : JVal → Option (Nat × JVal)) (now : String) (method : String)
    (h1 h2 h3 : Option String) (reqBody : Option JVal)
    (hskip : strOptTruthy cfg.webhookSecret = false ∨ getSignature h1 h2 h3 = none) :
    (∀ body : JVal, signatureGate cfg stringify h1 h2 h3 body = false)
    ∧ (∀ body : JVal, jsEmptyBody body = false →
        handler cfg stringify provider now ("POST") h1 h2 h3 (some body)
          = afterSignature cfg provider now body)
    ∧ (handler cfg stringify provider now method h1 h2 h3 reqBody).1.status ≠ 401 := by
  have hgate : ∀ body : JVal, signatureGate cfg stringify h1 h2 h3 body = false := by
    intro body
    unfold signatureGate
    rcases hskip with hsec | hhdr
    · match hs : cfg.webhookSecret, hg : getSignature h1 h2 h3 with
      | none, _ => rfl
      | some s, none => rfl
      | some s, some sig =>
        rw [hs] at hsec
        unfold strOptTruthy at hsec
        simp at hsec
        simp [hsec]
    · rw [hhdr]
      match cfg.webhookSecret with
      | none => rfl
      | some s => rfl
  refine ⟨hgate, ?_, ?_⟩
  · intro body hempty
    unfold handler
    simp [hempty, hgate body]
  · unfold handler
    split
    · simp [methodNotAllowedResp]
    · match reqBody with
      | none => simp [emptyBodyResp]
      | some body =>
        dsimp only
        split
        · simp [emptyBodyResp]
        · simp only [hgate body, Bool.false_eq_true, if_false]
          rcases afterSignature_status cfg provider now body with h | h <;>
            · rw [h]; omega

/-- Witness for C7: no secret configured, a garbage signature header, a body
with a payment id; the gate stays down, the handler reaches extraction, and
the status is not 401. -/
theorem C7_skip_signature_check_witness :
    strOptTruthy cfgOpen.webhookSecret = false
    ∧ jsEmptyBody (JVal.obj (jfields [("payment_id", JVal.str ("p1"))])) = false
    ∧ handler cfgOpen noStringify noProvider ("now") ("POST")
        (some ("garbage")) none none
        (some (JVal.obj (jfields [("payment_id", JVal.str ("p1"))])))
      = afterSignature cfgOpen noProvider ("now")
          (JVal.obj (jfields [("payment_id", JVal.str ("p1"))]))
    ∧ (handler cfgOpen noStringify noProvider ("now") ("POST")
        (some ("garbage")) none none
        (some (JVal.obj (jfields [("payment_id", JVal.str ("p1"))])))).1.status ≠ 401 := by
  have h := C7_skip_signature_check cfgOpen noStringify noProvider ("now") ("POST")
    (some ("garbage")) none none
    (some (JVal.obj (jfields [("payment_id", JVal.str ("p1"))]))) (Or.inl (by decide))
  exact ⟨by decide, by decide,
    h.2.1 (JVal.obj (jfields [("payment_id", JVal.str ("p1"))])) (by decide), h.2.2⟩

/-- Claim C10: a signature whose UTF-8 byte length is not the 64 bytes of a
hex HMAC-SHA256 digest makes `verifyPolarSignature` return `false` (the
`timingSafeEqual` length throw is caught), so the handler answers 401 — never
500 — on such a header. -/
theorem C10_signature_length_mismatch (apiKey : Option String)
    (stringify : JVal → List Nat) (provider : JVal → Option (Nat × JVal))
    (now : String) (h2 h3 : Option String) (secret sig : String) (body : JVal)
    (hsecret : secret ≠ "") (hsig : sig ≠ "")
    (hlen : (utf8Bytes sig).length ≠ 64) :
    verifyPolarSignature (rawBodyBytes stringify body) sig secret = false
    ∧ invalidSignatureResp.status = 401
    ∧ (jsEmptyBody body = false →
        handler ⟨apiKey, some secret⟩ stringify provider now ("POST")
          (some sig) h2 h3 (some body)
        = (invalidSignatureResp, [])) := by
  have hver : verifyPolarSignature (rawBodyBytes stringify body) sig secret = false := by
    rw [← Bool.not_eq_true, verifyPolarSignature_iff]
    intro he
    exact hlen (by rw [congrArg List.length he, hmacHex_utf8_length])
  refine ⟨hver, rfl, ?_⟩
  intro hempty
  unfold handler
  simp only [hempty]
  rw [signatureGate_eval _ _ _ _ _ _ _ hsecret hsig, hver]
  simp

/-- Witness for C10: secret `sec`, three-byte signature `abc`, a body with a
payment id. -/
theorem C10_signature_length_mismatch_witness :
    verifyPolarSignature
        (rawBodyBytes noStringify (JVal.obj (jfields [("payment_id", JVal.str ("p1"))])))
        ("abc") ("sec") = false
    ∧ (utf8Bytes ("abc")).length ≠ 64
    ∧ handler ⟨none, some ("sec")⟩ noStringify noProvider ("now") ("POST")
        (some ("abc")) none none
        (some (JVal.obj (jfields [("payment_id", JVal.str ("p1"))])))
      = (invalidSignatureResp, []) := by
  have h := C10_signature_length_mismatch none noStringify noProvider ("now")
    none none ("sec") ("abc")
    (JVal.obj (jfields [("payment_id", JVal.str ("p1"))]))
    (by decide) (by decide) (by decide)
  exact ⟨h.1, by decide, h.2.2 (by decide)⟩

/-- The `paymentId` field is the payment-id fallback chain. -/
theorem parse_paymentId (b : JVal) :
    (parsePaymentDetails b).paymentId = paymentIdOf b := rfl

/-- The `amount` field is cents-to-decimal conversion of the amount chain. -/
theorem parse_amount (b : JVal) :
    (parsePaymentDetails b).amount
      = (match amountCentsOf b with
        | some (JVal.num q) => some (jsToFixed2 (q / 100))
        | _ => none) := rfl

/-- The `amountCents` field is the amount chain itself. -/
theorem parse_amountCents (b : JVal) :
    (parsePaymentDetails b).amountCents = amountCentsOf b := rfl

/-- Claim C2, counterexample: the empty object body contains no payment id
under any recognized key, yet the handler answers 400 with error
`Invalid request`, not `Invalid payment data` — the emptiness check fires
before extraction. -/
theorem C2_counterexample :
    paymentIdOf (JVal.obj JFields.nil) = none
    ∧ (handler cfgOpen noStringify noProvider ("now") ("POST") none none none
        (some (JVal.obj JFields.nil))).1.status = 400
    ∧ (handler cfgOpen noStringify noProvider ("now") ("POST") none none none
        (some (JVal.obj JFields.nil))).1.error = some ("Invalid request")
    ∧ (handler cfgOpen noStringify noProvider ("now") ("POST") none none none
        (some (JVal.obj JFields.nil))).1.error ≠ some ("Invalid payment data") := by
  refine ⟨rfl, rfl, rfl, ?_⟩
  decide

/-- Claim C2 (amended): a POST request whose non-empty body passes or skips
the signature stage and carries no payment id under any of the six recognized
keys is answered 400 with error exactly `Invalid payment data`, with no
provider call and no event routing. -/
theorem C2_missing_payment_id (cfg : Config) (stringify : JVal → List Nat)
    (provider : JVal → Option (Nat × JVal)) (now : String)
    (h1 h2 h3 : Option String) (body : JVal)
    (hempty : jsEmptyBody body = false)
    (hgate : signatureGate cfg stringify h1 h2 h3 body = false)
    (ka : dget body ("id") = none) (kb : dget body ("payment_id") = none)
    (kc : jLookup body ("payment_id") = none) (kd : jLookup body ("id") = none)
    (ke : dget body ("checkout_id") = none) (kf : jLookup body ("checkout_id") = none) :
    handler cfg stringify provider now ("POST") h1 h2 h3 (some body)
      = (invalidPaymentDataResp, [])
    ∧ invalidPaymentDataResp.status = 400
    ∧ invalidPaymentDataResp.error = some ("Invalid payment data") := by
  have hpid : (parsePaymentDetails body).paymentId = none := by
    rw [parse_paymentId]
    unfold paymentIdOf
    simp [jsOr, ka, kb, kc, kd, ke, kf]
  refine ⟨?_, rfl, rfl⟩
  have hstage : handler cfg stringify provider now ("POST") h1 h2 h3 (some body)
      = afterSignature cfg provider now body := by
    unfold handler
    simp [hempty, hgate]
  rw [hstage]
  unfold afterSignature
  dsimp only
  rw [hpid]

/-- Witness for C2 at a non-empty body with no recognized payment-id key. -/
theorem C2_missing_payment_id_witness :
    jsEmptyBody (JVal.obj (jfields [("foo", JVal.num 1)])) = false
    ∧ handler cfgOpen noStringify noProvider ("now") ("POST") none none none
        (some (JVal.obj (jfields [("foo", JVal.num 1)])))
      = (invalidPaymentDataResp, []) := by
  have h := C2_missing_payment_id cfgOpen noStringify noProvider ("now")
    none none none (JVal.obj (jfields [("foo", JVal.num 1)]))
    (by decide) (by decide) (by decide) (by decide) (by decide) (by decide)
    (by decide) (by decide)
  exact ⟨by decide, h.1⟩

/-- On an HTTP-success provider response, acceptance is exactly: the extracted
status chain yields a string whose lowercase form is on the allow-list. -/
theorem verifyPayment_success_char (cfg : Config) (provider : JVal → Option (Nat × JVal))
    (now : String) (pid : JVal) (st : Nat) (respBody : JVal)
    (hkey : strOptTruthy cfg.apiKey = true)
    (hresp : provider pid = some (st, respBody))
    (hok : 200 ≤ st ∧ st < 300) :
    (verifyPaymentWithPolar cfg provider now (some pid)).1.success
      = (match providerStatusOf respBody with
        | some (JVal.str s) => validStatuses.contains (jsToLower s)
        | _ => false) := by
  have hokb : (decide (200 ≤ st) && decide (st < 300)) = true := by
    simp [hok.1, hok.2]
  unfold verifyPaymentWithPolar
  simp only [hkey, Bool.not_true, Bool.false_eq_true, if_false, hresp, hokb]
  cases hst : providerStatusOf respBody with
  | none => rfl
  | some v =>
    cases v with
    | str s =>
      dsimp only
      split <;> simp_all
    | null => rfl
    | bool b => rfl
    | num q => rfl
    | obj fs => rfl

/-- Claim C3: for an HTTP-success provider response, the payment is accepted
iff the extracted status field, lowercased, is on the allow-list
{succeeded, completed, paid, processed}; and a status of `pending` makes the
handler answer 400 with error `Payment verification failed`. -/
theorem C3_status_allowlist (cfg : Config) (provider : JVal → Option (Nat × JVal))
    (now : String) (pid : JVal) (st : Nat) (respBody : JVal)
    (hkey : strOptTruthy cfg.apiKey = true)
    (hresp : provider pid = some (st, respBody))
    (hok : 200 ≤ st ∧ st < 300) :
    ((verifyPaymentWithPolar cfg provider now (some pid)).1.success = true
      ↔ ∃ s : String, providerStatusOf respBody = some (JVal.str s)
          ∧ validStatuses.contains (jsToLower s) = true)
    ∧ (∀ (stringify : JVal → List Nat) (h1 h2 h3 : Option String) (body : JVal),
        jsEmptyBody body = false →
        signatureGate cfg stringify h1 h2 h3 body = false →
        (parsePaymentDetails body).paymentId = some pid →
        providerStatusOf respBody = some (JVal.str ("pending")) →
        (handler cfg stringify provider now ("POST") h1 h2 h3 (some body)).1.status = 400
        ∧ (handler cfg stringify provider now ("POST") h1 h2 h3 (some body)).1.error
            = some ("Payment verification failed")) := by
  have hchar := verifyPayment_success_char cfg provider now pid st respBody hkey hresp hok
  constructor
  · rw [hchar]
    cases hst : providerStatusOf respBody with
    | none => simp
    | some v =>
      cases v with
      | str s =>
        constructor
        · intro hc; exact ⟨s, rfl, hc⟩
        · rintro ⟨s2, he, hc⟩
          cases JVal.str.inj (Option.some.inj he)
          exact hc
      | null => simp
      | bool b => simp
      | num q => simp
      | obj fs => simp
  · intro stringify h1 h2 h3 body hempty hgate hpid hstatus
    have hsucc : (verifyPaymentWithPolar cfg provider now (some pid)).1.success = false := by
      rw [hchar, hstatus]
      decide
    have hstage : handler cfg stringify provider now ("POST") h1 h2 h3 (some body)
        = afterSignature cfg provider now body := by
      unfold handler
      simp [hempty, hgate]
    have hfail : afterSignature cfg provider now body
        = (verifyFailedResp (verifyPaymentWithPolar cfg provider now (some pid)).1
            (parsePaymentDetails body),
           (verifyPaymentWithPolar cfg provider now (some pid)).2) := by
      unfold afterSignature
      dsimp only
      rw [hpid]
      dsimp only
      rw [hsucc]
      rfl
    rw [hstage, hfail]
    exact ⟨rfl, rfl⟩

/-- Witness for C3: a provider answering 200 with status `Paid` is accepted;
one answering 200 with status `pending` drives the handler to 400. -/
theorem C3_status_allowlist_witness :
    (verifyPaymentWithPolar cfgApiKey
        (providerWith 200 (JVal.obj (jfields [("status", JVal.str ("Paid"))])))
        ("now") (some (JVal.str ("p1")))).1.success = true
    ∧ (handler cfgApiKey noStringify
        (providerWith 200 (JVal.obj (jfields [("status", JVal.str ("pending"))])))
        ("now") ("POST") none none none
        (some (JVal.obj (jfields [("payment_id", JVal.str ("p1"))])))).1.status = 400
    ∧ (handler cfgApiKey noStringify
        (providerWith 200 (JVal.obj (jfields [("status", JVal.str ("pending"))])))
        ("now") ("POST") none none none
        (some (JVal.obj (jfields [("payment_id", JVal.str ("p1"))])))).1.error
      = some ("Payment verification failed") := by
  have hPaid := (C3_status_allowlist cfgApiKey
    (providerWith 200 (JVal.obj (jfields [("status", JVal.str ("Paid"))])))
    ("now") (JVal.str ("p1")) 200 (JVal.obj (jfields [("status", JVal.str ("Paid"))]))
    (by decide) rfl (by omega)).1
  have hPend := (C3_status_allowlist cfgApiKey
    (providerWith 200 (JVal.obj (jfields [("status", JVal.str ("pending"))])))
    ("now") (JVal.str ("p1")) 200 (JVal.obj (jfields [("status", JVal.str ("pending"))]))
    (by decide) rfl (by omega)).2 noStringify none none none
    (JVal.obj (jfields [("payment_id", JVal.str ("p1"))]))
    (by decide) (by decide) (by decide) (by decide)
  exact ⟨hPaid.mpr ⟨("Paid"), by decide, by decide⟩, hPend.1, hPend.2⟩

/-- Claim C4, counterexample: a decimal amount 19.99 under the `amount` key is
not returned unchanged — the code divides every value of the amount chain by
100, yielding 0.20. -/
theorem C4_counterexample :
    (parsePaymentDetails (JVal.obj (jfields [("amount", JVal.num (1999 / 100))]))).amount
      = some ((1 : ℚ) / 5)
    ∧ ((1 : ℚ) / 5) ≠ (1999 : ℚ) / 100 := by
  constructor
  · rw [parse_amount]
    have h : amountCentsOf (JVal.obj (jfields [("amount", JVal.num (1999 / 100))]))
        = some (JVal.num (1999 / 100)) := by
      unfold amountCentsOf dget jLookup jsOr jfields
      simp [JFields.lookupKey, jTruthy]
    rw [h]
    unfold jsToFixed2
    norm_num
  · norm_num

/-- Claim C4 (amended): every numeric value found by the amount chain —
whether under `amount_cents` or under `amount`, nested or top-level — is
treated as integer cents: divided by 100 and rounded to two decimal places;
in particular `amount_cents = 1999` yields amount 19.99. -/
theorem C4_cents_normalization :
    ((parsePaymentDetails (JVal.obj (jfields [("amount_cents", JVal.num 1999)]))).amount
      = some ((1999 : ℚ) / 100))
    ∧ (∀ (body : JVal) (q : ℚ), amountCentsOf body = some (JVal.num q) →
        (parsePaymentDetails body).amount = some (jsToFixed2 (q / 100))) := by
  have hgen : ∀ (body : JVal) (q : ℚ), amountCentsOf body = some (JVal.num q) →
      (parsePaymentDetails body).amount = some (jsToFixed2 (q / 100)) := by
    intro body q hq
    rw [parse_amount, hq]
  constructor
  · rw [hgen (JVal.obj (jfields [("amount_cents", JVal.num 1999)])) 1999 (by decide)]
    unfold jsToFixed2
    norm_num
  · exact hgen

/-- Witness for C4 at the payload `{amount_cents: 1999}`. -/
theorem C4_cents_normalization_witness :
    amountCentsOf (JVal.obj (jfields [("amount_cents", JVal.num 1999)]))
      = some (JVal.num 1999)
    ∧ (parsePaymentDetails (JVal.obj (jfields [("amount_cents", JVal.num 1999)]))).amount
      = some (jsToFixed2 ((1999 : ℚ) / 100)) :=
  ⟨by decide, (C4_cents_normalization.2
    (JVal.obj (jfields [("amount_cents", JVal.num 1999)])) 1999 (by decide))⟩

theorem parse_currency (b : JVal) : (parsePaymentDetails b).currency
    = (jsOr (dget b ("currency")) (jsOr (jLookup b ("currency")) none)).getD
        (JVal.str ("USD")) := rfl

theorem parse_customerId (b : JVal) : (parsePaymentDetails b).customerId
    = jsOr (dget b ("customer_id")) (jsOr (jLookup b ("customer_id"))
        (jsOr (dget b ("user_id")) (jsOr (jLookup b ("user_id"))
          (jsOr (dget2 b ("customer") ("id")) none)))) := rfl

theorem parse_productId (b : JVal) : (parsePaymentDetails b).productId
    = jsOr (dget b ("product_id")) (jsOr (jLookup b ("product_id"))
        (jsOr (dget2 b ("product") ("id")) none)) := rfl

theorem parse_subscriptionId (b : JVal) : (parsePaymentDetails b).subscriptionId
    = jsOr (dget b ("subscription_id")) (jsOr (jLookup b ("subscription_id"))
        (jsOr (dget2 b ("subscription") ("id")) none)) := rfl

theorem parse_status (b : JVal) : (parsePaymentDetails b).status
    = jsOr (dget b ("status")) (jsOr (jLookup b ("status"))
        (jsOr (dget b ("state")) (jsOr (jLookup b ("state")) none))) := rfl

theorem parse_metadata (b : JVal) : (parsePaymentDetails b).metadata
    = (jsOr (dget b ("metadata")) (jsOr (jLookup b ("metadata")) none)).getD
        (JVal.obj JFields.nil) := rfl

theorem parse_createdAt (b : JVal) : (parsePaymentDetails b).createdAt
    = jsOr (dget b ("created_at")) (jsOr (jLookup b ("created_at")) none) := rfl

theorem parse_updatedAt (b : JVal) : (parsePaymentDetails b).updatedAt
    = jsOr (dget b ("updated_at")) (jsOr (jLookup b ("updated_at")) none) := rfl

/-- Claim C5, counterexample: a payload with the nested `data.checkout_id`
and the top-level `id` both present: extraction returns the top-level value,
so not every nested source key is consulted before every top-level key. -/
theorem C5_counterexample :
    dget (JVal.obj (jfields [("id", JVal.str ("top")),
        ("data", JVal.obj (jfields [("checkout_id", JVal.str ("nested"))]))]))
      ("checkout_id") = some (JVal.str ("nested"))
    ∧ (parsePaymentDetails (JVal.obj (jfields [("id", JVal.str ("top")),
        ("data", JVal.obj (jfields [("checkout_id", JVal.str ("nested"))]))]))).paymentId
      = some (JVal.str ("top"))
    ∧ JVal.str ("top") ≠ JVal.str ("nested") := by
  refine ⟨by decide, by decide, by decide⟩

/-- Claim C5 (amended): for each canonical field, the nested `data.X` source
of the same key name X is consulted before the top-level X, so a truthy
nested value wins over any same-named top-level one; the claim's blanket
nested-before-top ordering across different key names fails (see the
counterexample: top-level `id` is consulted before nested `data.checkout_id`). -/
theorem C5_nested_key_precedence (body : JVal) (v : JVal) (ht : jTruthy v = true) :
    (dget body ("id") = some v → (parsePaymentDetails body).paymentId = some v)
    ∧ (dget body ("amount_cents") = some v → (parsePaymentDetails body).amountCents = some v)
    ∧ (dget body ("currency") = some v → (parsePaymentDetails body).currency = v)
    ∧ (dget body ("customer_id") = some v → (parsePaymentDetails body).customerId = some v)
    ∧ (dget body ("product_id") = some v → (parsePaymentDetails body).productId = some v)
    ∧ (dget body ("subscription_id") = some v →
        (parsePaymentDetails body).subscriptionId = some v)
    ∧ (dget body ("status") = some v → (parsePaymentDetails body).status = some v)
    ∧ (dget body ("metadata") = some v → (parsePaymentDetails body).metadata = v)
    ∧ (dget body ("created_at") = some v → (parsePaymentDetails body).createdAt = some v)
    ∧ (dget body ("updated_at") = some v → (parsePaymentDetails body).updatedAt = some v) := by
  refine ⟨fun h => ?_, fun h => ?_, fun h => ?_, fun h => ?_, fun h => ?_,
    fun h => ?_, fun h => ?_, fun h => ?_, fun h => ?_, fun h => ?_⟩
  · rw [parse_paymentId]; unfold paymentIdOf; rw [h]; simp [jsOr, ht]
  · rw [parse_amountCents]; unfold amountCentsOf; rw [h]; simp [jsOr, ht]
  · rw [parse_currency, h]; simp [jsOr, ht]
  · rw [parse_customerId, h]; simp [jsOr, ht]
  · rw [parse_productId, h]; simp [jsOr, ht]
  · rw [parse_subscriptionId, h]; simp [jsOr, ht]
  · rw [parse_status, h]; simp [jsOr, ht]
  · rw [parse_metadata, h]; simp [jsOr, ht]
  · rw [parse_createdAt, h]; simp [jsOr, ht]
  · rw [parse_updatedAt, h]; simp [jsOr, ht]

/-- Witness for C5: a payload with `status` both nested and top-level — the
nested value is extracted. -/
theorem C5_nested_key_precedence_witness :
    dget (JVal.obj (jfields [("status", JVal.str ("top-level")),
        ("data", JVal.obj (jfields [("status", JVal.str ("nested"))]))])) ("status")
      = some (JVal.str ("nested"))
    ∧ (parsePaymentDetails (JVal.obj (jfields [("status", JVal.str ("top-level")),
        ("data", JVal.obj (jfields [("status", JVal.str ("nested"))]))]))).status
      = some (JVal.str ("nested")) :=
  ⟨by decide,
    (C5_nested_key_precedence
      (JVal.obj (jfields [("status", JVal.str ("top-level")),
        ("data", JVal.obj (jfields [("status", JVal.str ("nested"))]))]))
      (JVal.str ("nested")) (by decide)).2.2.2.2.2.2.1 (by decide)⟩

/-- Claim C6: a verified request whose extracted event type is a string not
among the handled event types is answered 200 with a success envelope whose
`processing.message` embeds the literal event type and says it was not
processed. -/
theorem C6_unhandled_event_type (cfg : Config) (stringify : JVal → List Nat)
    (provider : JVal → Option (Nat × JVal)) (now : String)
    (h1 h2 h3 : Option String) (body : JVal) (s : String)
    (hempty : jsEmptyBody body = false)
    (hgate : signatureGate cfg stringify h1 h2 h3 body = false)
    (hpid : (parsePaymentDetails body).paymentId.isSome = true)
    (hver : (verifyPaymentWithPolar cfg provider now
        (parsePaymentDetails body).paymentId).1.success = true)
    (hev : eventTypeOf body (parsePaymentDetails body) = some (JVal.str s))
    (hs1 : successEvents.contains s = false)
    (hs2 : failureEvents.contains s = false)
    (hs3 : (s == "payment.refunded") = false) :
    (handler cfg stringify provider now ("POST") h1 h2 h3 (some body)).1.status = 200
    ∧ (handler cfg stringify provider now ("POST") h1 h2 h3 (some body)).1.success = true
    ∧ (handler cfg stringify provider now ("POST") h1 h2 h3 (some body)).1.processing
        = some (unhandledResult s)
    ∧ (unhandledResult s).message
        = "Event type '" ++ s ++ "' received but not processed" := by
  obtain ⟨pid, hpid2⟩ := Option.isSome_iff_exists.mp hpid
  rw [hpid2] at hver
  have hstage : handler cfg stringify provider now ("POST") h1 h2 h3 (some body)
      = afterSignature cfg provider now body := by
    unfold handler
    simp [hempty, hgate]
  have hafter : afterSignature cfg provider now body
      = (successResp (parsePaymentDetails body)
          (verifyPaymentWithPolar cfg provider now (some pid)).1 (unhandledResult s) now,
         (verifyPaymentWithPolar cfg provider now (some pid)).2 ++ []) := by
    unfold afterSignature
    dsimp only
    rw [hpid2, hev, hver]
    simp only [hs1, hs2, hs3, Bool.not_true, Bool.false_eq_true, if_false]
  rw [hstage, hafter]
  exact ⟨rfl, rfl, rfl, rfl⟩

/-- Witness for C6 at event type `payment.unknown` with no API key
configured (provider verification skipped and passed). -/
theorem C6_unhandled_event_type_witness :
    eventTypeOf (JVal.obj (jfields [("payment_id", JVal.str ("p1")),
        ("type", JVal.str ("payment.unknown"))]))
      (parsePaymentDetails (JVal.obj (jfields [("payment_id", JVal.str ("p1")),
        ("type", JVal.str ("payment.unknown"))])))
      = some (JVal.str ("payment.unknown"))
    ∧ (handler cfgOpen noStringify noProvider ("now") ("POST") none none none
        (some (JVal.obj (jfields [("payment_id", JVal.str ("p1")),
          ("type", JVal.str ("payment.unknown"))])))).1.status = 200
    ∧ (handler cfgOpen noStringify noProvider ("now") ("POST") none none none
        (some (JVal.obj (jfields [("payment_id", JVal.str ("p1")),
          ("type", JVal.str ("payment.unknown"))])))).1.processing
        = some (unhandledResult ("payment.unknown"))
    ∧ (unhandledResult ("payment.unknown")).message
        = "Event type 'payment.unknown' received but not processed" := by
  have h := C6_unhandled_event_type cfgOpen noStringify noProvider ("now")
    none none none
    (JVal.obj (jfields [("payment_id", JVal.str ("p1")),
      ("type", JVal.str ("payment.unknown"))]))
    ("payment.unknown")
    (by decide) (by decide) (by decide) (by decide) (by decide)
    (by decide) (by decide) (by decide)
  exact ⟨by decide, h.1, h.2.2.1, h.2.2.2⟩

/-- Claim C9: when every recognized amount source is absent or carries the
number 0, both `amount` and `amountCents` come out `null` — exactly as for a
payload carrying no amount field at all (0 is falsy, so every fallback falls
through). -/
theorem C9_zero_amount (body : JVal)
    (k1 : dget body ("amount_cents") = none
      ∨ dget body ("amount_cents") = some (JVal.num 0))
    (k2 : jLookup body ("amount_cents") = none
      ∨ jLookup body ("amount_cents") = some (JVal.num 0))
    (k3 : dget body ("amount") = none ∨ dget body ("amount") = some (JVal.num 0))
    (k4 : jLookup body ("amount") = none ∨ jLookup body ("amount") = some (JVal.num 0)) :
    (parsePaymentDetails body).amount = none
    ∧ (parsePaymentDetails body).amountCents = none := by
  have hchain : amountCentsOf body = none := by
    unfold amountCentsOf
    rcases k1 with h1 | h1 <;> rcases k2 with h2 | h2 <;> rcases k3 with h3 | h3 <;>
      rcases k4 with h4 | h4 <;> simp [jsOr, h1, h2, h3, h4, jTruthy]
  constructor
  · rw [parse_amount, hchain]
  · rw [parse_amountCents, hchain]

/-- Witness for C9: the payload `{amount_cents: 0}` and the amount-free
payload `{foo: 1}` both extract `amount = null`, `amountCents = null`. -/
theorem C9_zero_amount_witness :
    ((parsePaymentDetails (JVal.obj (jfields [("amount_cents", JVal.num 0)]))).amount = none
      ∧ (parsePaymentDetails
          (JVal.obj (jfields [("amount_cents", JVal.num 0)]))).amountCents = none)
    ∧ ((parsePaymentDetails (JVal.obj (jfields [("foo", JVal.num 1)]))).amount = none
      ∧ (parsePaymentDetails (JVal.obj (jfields [("foo", JVal.num 1)]))).amountCents = none) :=
  ⟨C9_zero_amount (JVal.obj (jfields [("amount_cents", JVal.num 0)]))
      (Or.inl (by decide)) (Or.inr (by decide)) (Or.inl (by decide)) (Or.inl (by decide)),
   C9_zero_amount (JVal.obj (jfields [("foo", JVal.num 1)]))
      (Or.inl (by decide)) (Or.inl (by decide)) (Or.inl (by decide)) (Or.inl (by decide))⟩

end JeniferBackend
